import Mathlib

/-
Verification of the video-generation proxy (src/main.py).

The development shallowly embeds the core request-handling code:
  - the Request Builder (the payload constructed in call_wan_api_create),
  - the Submission Executor (call_wan_api_create: a retry loop over
    transport outcomes),
  - the Status Translator (call_wan_api_status and the check_status route),
  - the submit route (generate_video) with its credential fail-fast check.

Network transport is modelled as an oracle: for the create call a function
from the attempt index to the outcome of that attempt (a connection error,
a timeout, another request error, or an HTTP response carrying a decoded
JSON body); for the status call a single outcome.  Each embedded operation
returns, besides its result, the list of observable events it performs
(outbound POST/GET attempts and backoff sleeps), so that attempt counts and
inter-attempt waits are provable facts.  Response bodies are modelled as
decoded JSON values; the Python dict operations used on them (membership,
subscription, .get with default) are translated exactly, with Option
capturing the unhandled-exception case.
-/

/-- A decoded JSON value, as returned by response.json() in the source. -/
inductive Json where
  | null
  | bool (b : Bool)
  | num (n : Int)
  | str (s : String)
  | arr (elems : List Json)
  | obj (fields : List (String × Json))

/-- Substring containment, the meaning of Python's `needle in haystack`
on strings. -/
def strContainsSubstr (s pat : String) : Bool :=
  (List.range (s.length + 1)).any (fun i => pat.isPrefixOf (s.drop i))

/-- Python's `key in j` on a decoded JSON value: key membership on a dict,
element equality on a list (a string compares equal only to an equal
string), substring containment on a string; `none` models the TypeError
raised on the remaining values. -/
def pyContains (key : String) : Json → Option Bool
  | .obj fields => some (fields.any (fun p => p.1 == key))
  | .arr elems => some (elems.any (fun e =>
      match e with
      | .str s => s == key
      | _ => false))
  | .str s => some (strContainsSubstr s key)
  | _ => none

/-- Python's `j[key]` on a decoded JSON value: `none` models the KeyError
(missing key) or TypeError (non-dict value) raised otherwise. -/
def pySubscript (j : Json) (key : String) : Option Json :=
  match j with
  | .obj fields => (fields.find? (fun p => p.1 == key)).map (·.2)
  | _ => none

/-- Python's f-string rendering of the optional API key (None prints as
"None"). -/
def pyStrOpt : Option String → String
  | none => "None"
  | some s => s

/-- Python's `not API_KEY`: true for an unset key and for an empty string. -/
def pyFalsy : Option String → Bool
  | none => true
  | some s => s.isEmpty

/-- Prefix test on strings (character-list based, so that it evaluates by
reduction); used to state the failure-message invariant. -/
def strStartsWith (s pre : String) : Bool :=
  pre.data.isPrefixOf s.data

/-- BASE_URL from src/main.py. -/
def BASE_URL : String := "https://dashscope-intl.aliyuncs.com/api/v1"

/-- MODEL_NAME from src/main.py. -/
def MODEL_NAME : String := "wan2.6-t2v"

/-- The VideoGenerationRequest pydantic model from src/main.py. -/
structure VideoGenerationRequest where
  prompt : String
  negative_prompt : Option String := none
  size : String := "1280*720"
  duration : Int := 5
  audio : Bool := true
  prompt_extend : Bool := true

/-- JSON serialization of an optional string field (Python None becomes
JSON null). -/
def optStrToJson : Option String → Json
  | none => .null
  | some s => .str s

/-- The upstream wire payload built in call_wan_api_create. -/
def buildPayload (data : VideoGenerationRequest) : Json :=
  .obj [("model", .str MODEL_NAME),
        ("input", .obj [("prompt", .str data.prompt),
                        ("negative_prompt", optStrToJson data.negative_prompt)]),
        ("parameters", .obj [("size", .str data.size),
                             ("duration", .num data.duration),
                             ("prompt_extend", .bool data.prompt_extend),
                             ("audio", .bool data.audio)])]

/-- The headers sent by call_wan_api_create. -/
def createHeaders (apiKey : Option String) : List (String × String) :=
  [("Content-Type", "application/json"),
   ("Authorization", "Bearer " ++ pyStrOpt apiKey),
   ("X-DashScope-Async", "enable")]

/-- The create-task endpoint URL used in call_wan_api_create. -/
def createUrl : String := BASE_URL ++ "/services/aigc/video-generation/video-synthesis"

/-- The outcome of one outbound POST attempt, as distinguished by the
except clauses of call_wan_api_create: httpx.ConnectError,
httpx.TimeoutException, any other httpx.RequestError, or a transport-level
success carrying the HTTP status code and the decoded response body. -/
inductive CreateOutcome where
  | connectError (msg : String)
  | timeoutError (msg : String)
  | requestError (msg : String)
  | response (status_code : Nat) (body : Json)

/-- An outcome retried by call_wan_api_create: a connection error or a
timeout. -/
def CreateOutcome.isTransient : CreateOutcome → Bool
  | .connectError _ => true
  | .timeoutError _ => true
  | _ => false

/-- The str(e) of a failure outcome. -/
def CreateOutcome.errMsg : CreateOutcome → String
  | .connectError m => m
  | .timeoutError m => m
  | .requestError m => m
  | .response _ _ => ""

/-- The detail payload of a fastapi.HTTPException: a plain string or a
decoded JSON value. -/
inductive Detail where
  | text (s : String)
  | json (j : Json)

/-- A fastapi.HTTPException as raised by the source: status code plus
detail. -/
structure HTTPExc where
  status_code : Nat
  detail : Detail

/-- An observable side effect of a request handler: an outbound POST
attempt (with url, headers and payload), an outbound GET attempt, or a
backoff sleep of the given number of seconds. -/
inductive Event where
  | post (url : String) (headers : List (String × String)) (payload : Json)
  | get (url : String) (headers : List (String × String))
  | sleep (seconds : Nat)

/-- Number of outbound POST attempts in an event trace. -/
def countPosts (evs : List Event) : Nat :=
  evs.countP (fun e =>
    match e with
    | .post _ _ _ => true
    | _ => false)

/-- The short-circuit condition
`"output" not in response_json or "task_id" not in response_json["output"]`
from call_wan_api_create; `none` models an unhandled exception while
evaluating it. -/
def missingTaskId (rj : Json) : Option Bool := do
  let c1 ← pyContains "output" rj
  if c1 then
    let out ← pySubscript rj "output"
    let c2 ← pyContains "task_id" out
    pure (!c2)
  else
    pure true

/-- The retry loop of call_wan_api_create.  `attempt` is the Python loop
index, `remaining` the number of loop iterations left (`for attempt in
range(max_retries)`).  The result pairs the event trace with the outcome:
`none` models an unhandled Python exception, `some (.error e)` a raised
HTTPException, `some (.ok tid)` the returned task identifier. -/
def createLoop (apiKey : Option String) (data : VideoGenerationRequest)
    (outcomes : Nat → CreateOutcome) (maxRetries : Nat) :
    Nat → Nat → List Event × Option (Except HTTPExc Json)
  | _attempt, 0 => ([], some (.error ⟨500, .text "Unknown error during API call"⟩))
  | attempt, remaining + 1 =>
    let ev := Event.post createUrl (createHeaders apiKey) (buildPayload data)
    match outcomes attempt with
    | .response code body =>
      if code ≠ 200 then
        ([ev], some (.error ⟨code, .json body⟩))
      else
        match missingTaskId body with
        | none => ([ev], none)
        | some true => ([ev], some (.error ⟨500, .text "API response missing task_id"⟩))
        | some false =>
          match (pySubscript body "output").bind (fun o => pySubscript o "task_id") with
          | none => ([ev], none)
          | some tid => ([ev], some (.ok tid))
    | .connectError msg =>
      if attempt = maxRetries - 1 then
        ([ev], some (.error ⟨500, .text ("Network Error: " ++ msg)⟩))
      else
        let rest := createLoop apiKey data outcomes maxRetries (attempt + 1) remaining
        (ev :: Event.sleep 1 :: rest.1, rest.2)
    | .timeoutError msg =>
      if attempt = maxRetries - 1 then
        ([ev], some (.error ⟨500, .text ("Network Error: " ++ msg)⟩))
      else
        let rest := createLoop apiKey data outcomes maxRetries (attempt + 1) remaining
        (ev :: Event.sleep 1 :: rest.1, rest.2)
    | .requestError msg =>
        ([ev], some (.error ⟨500, .text ("Network Error: " ++ msg)⟩))

/-- call_wan_api_create from src/main.py: max_retries = 3, loop from
attempt 0. -/
def call_wan_api_create (apiKey : Option String) (data : VideoGenerationRequest)
    (outcomes : Nat → CreateOutcome) : List Event × Option (Except HTTPExc Json) :=
  createLoop apiKey data outcomes 3 0 3

/-- The 200 body of the /api/generate route. -/
structure GenerateResponse where
  task_id : Json
  message : String

/-- The generate_video route handler from src/main.py: fail fast on a
missing credential, otherwise run the Submission Executor. -/
def generate_video (apiKey : Option String) (data : VideoGenerationRequest)
    (outcomes : Nat → CreateOutcome) :
    List Event × Option (Except HTTPExc GenerateResponse) :=
  if pyFalsy apiKey then
    ([], some (.error ⟨500, .text "API Key not configured on server."⟩))
  else
    match call_wan_api_create apiKey data outcomes with
    | (evs, none) => (evs, none)
    | (evs, some (.error e)) => (evs, some (.error e))
    | (evs, some (.ok tid)) => (evs, some (.ok ⟨tid, "Task created successfully"⟩))

/-
The Status Translator.  The get-task response body is modelled at the
schema granularity at which check_status reads it (the upstream contract
of the spec): an optional `output` object with optional string fields
task_status, video_url and message, plus an opaque `usage` value.  Each
`dict.get` of the source translates to an Option.getD on this shape.
-/

/-- The `output` sub-object of a get-task response body, at the
granularity read by check_status. -/
structure WanOutput where
  task_status : Option String := none
  video_url : Option String := none
  message : Option String := none

/-- A decoded get-task response body, at the granularity read by
check_status: an optional output object and an opaque usage value. -/
structure WanStatusBody where
  output : Option WanOutput := none
  usage : Option Json := none

/-- The normalized response_data dict built by check_status. -/
structure StatusReport where
  status : String
  progress_msg : String
  video_url : Option String
  usage : Json

/-- The status-translation logic of the check_status route handler
(src/main.py lines 136-152): read output.task_status with default
UNKNOWN, then branch on SUCCEEDED / FAILED / anything else. -/
def translate_status (result : WanStatusBody) : StatusReport :=
  let output := result.output.getD {}
  let status := output.task_status.getD "UNKNOWN"
  let response_data : StatusReport :=
    { status := status
      progress_msg := "Processing..."
      video_url := none
      usage := result.usage.getD (.obj []) }
  if status = "SUCCEEDED" then
    { response_data with
        video_url := output.video_url
        progress_msg := "Completed" }
  else if status = "FAILED" then
    { response_data with
        progress_msg := "Failed: " ++ output.message.getD "Unknown error" }
  else
    response_data

/-- The outcome of the single outbound GET of call_wan_api_status: an
httpx.RequestError, or a transport-level success carrying the HTTP status
code and the decoded body. -/
inductive StatusOutcome where
  | requestError (msg : String)
  | response (status_code : Nat) (body : WanStatusBody)

/-- The headers sent by call_wan_api_status. -/
def statusHeaders (apiKey : Option String) : List (String × String) :=
  [("Authorization", "Bearer " ++ pyStrOpt apiKey)]

/-- call_wan_api_status from src/main.py: issue one GET to the task-lookup
endpoint (no credential check, no retry) and return the decoded body; any
httpx.RequestError is surfaced as HTTPException(500, str(e)). -/
def call_wan_api_status (apiKey : Option String) (task_id : String)
    (outcome : StatusOutcome) : List Event × Except HTTPExc WanStatusBody :=
  let url := BASE_URL ++ "/tasks/" ++ task_id
  let ev := Event.get url (statusHeaders apiKey)
  match outcome with
  | .response _code body => ([ev], .ok body)
  | .requestError msg => ([ev], .error ⟨500, .text msg⟩)

/-- The check_status route handler from src/main.py: call
call_wan_api_status, then translate the decoded body. -/
def check_status (apiKey : Option String) (task_id : String)
    (outcome : StatusOutcome) : List Event × Except HTTPExc StatusReport :=
  match call_wan_api_status apiKey task_id outcome with
  | (evs, .error e) => (evs, .error e)
  | (evs, .ok body) => (evs, .ok (translate_status body))

/-- A transient outcome is a connection error or a timeout, with some
message. -/
theorem transient_cases (o : CreateOutcome) (h : o.isTransient = true) :
    ∃ m, o = .connectError m ∨ o = .timeoutError m := by
  cases o <;> simp_all [CreateOutcome.isTransient]

/-- C1: when every attempted upstream POST fails with a connection or
timeout error, call_wan_api_create performs exactly 3 POST attempts with a
1-second sleep between consecutive attempts, and surfaces a single
network-failure HTTPException built from the final attempt's error (the
intermediate failures are not surfaced). -/
theorem C1_retry_exhaustion (apiKey : Option String) (data : VideoGenerationRequest)
    (outcomes : Nat → CreateOutcome)
    (h : ∀ i, i < 3 → (outcomes i).isTransient = true) :
    call_wan_api_create apiKey data outcomes =
      ([.post createUrl (createHeaders apiKey) (buildPayload data),
        .sleep 1,
        .post createUrl (createHeaders apiKey) (buildPayload data),
        .sleep 1,
        .post createUrl (createHeaders apiKey) (buildPayload data)],
       some (.error ⟨500, .text ("Network Error: " ++ (outcomes 2).errMsg)⟩)) ∧
    countPosts (call_wan_api_create apiKey data outcomes).1 = 3 := by
  obtain ⟨m0, e0⟩ := transient_cases _ (h 0 (by omega))
  obtain ⟨m1, e1⟩ := transient_cases _ (h 1 (by omega))
  obtain ⟨m2, e2⟩ := transient_cases _ (h 2 (by omega))
  rcases e0 with e0 | e0 <;> rcases e1 with e1 | e1 <;> rcases e2 with e2 | e2 <;>
    simp [call_wan_api_create, createLoop, e0, e1, e2, CreateOutcome.errMsg, countPosts]

/-- Witness for C1 at a concrete run: three simulated connection errors. -/
theorem C1_retry_exhaustion_witness :
    (call_wan_api_create none { prompt := "p" } (fun _ => .connectError "boom")).2 =
      some (.error ⟨500, .text "Network Error: boom"⟩) ∧
    countPosts (call_wan_api_create none { prompt := "p" }
      (fun _ => .connectError "boom")).1 = 3 := by
  have h := C1_retry_exhaustion none { prompt := "p" } (fun _ => .connectError "boom")
    (fun i _ => rfl)
  refine ⟨?_, h.2⟩
  rw [h.1]
  rfl

/-- C2: a first-attempt upstream response with a non-success HTTP status
makes call_wan_api_create fail immediately after exactly 1 POST attempt
(no retry), surfacing the upstream status code together with the decoded
response body as the HTTPException detail. -/
theorem C2_upstream_reject_no_retry (apiKey : Option String)
    (data : VideoGenerationRequest) (outcomes : Nat → CreateOutcome)
    (code : Nat) (body : Json)
    (h0 : outcomes 0 = .response code body) (hcode : code ≠ 200) :
    call_wan_api_create apiKey data outcomes =
      ([.post createUrl (createHeaders apiKey) (buildPayload data)],
       some (.error ⟨code, .json body⟩)) ∧
    countPosts (call_wan_api_create apiKey data outcomes).1 = 1 := by
  simp [call_wan_api_create, createLoop, h0, hcode, countPosts]

/-- Witness for C2 at a concrete run: a simulated HTTP 400 with an error
body. -/
theorem C2_upstream_reject_no_retry_witness :
    call_wan_api_create none { prompt := "p" }
        (fun _ => .response 400 (.obj [("code", .str "InvalidParameter")])) =
      ([.post createUrl (createHeaders none) (buildPayload { prompt := "p" })],
       some (.error ⟨400, .json (.obj [("code", .str "InvalidParameter")])⟩)) ∧
    countPosts (call_wan_api_create none { prompt := "p" }
      (fun _ => .response 400 (.obj [("code", .str "InvalidParameter")]))).1 = 1 :=
  C2_upstream_reject_no_retry none { prompt := "p" }
    (fun _ => .response 400 (.obj [("code", .str "InvalidParameter")]))
    400 (.obj [("code", .str "InvalidParameter")]) rfl (by omega)

/-- C5: when the credential is not configured (unset, or Python-falsy
empty), generate_video fails with the configuration error and performs
zero outbound network calls. -/
theorem C5_missing_credential_fail_fast (apiKey : Option String)
    (data : VideoGenerationRequest) (outcomes : Nat → CreateOutcome)
    (h : pyFalsy apiKey = true) :
    generate_video apiKey data outcomes =
      ([], some (.error ⟨500, .text "API Key not configured on server."⟩)) ∧
    countPosts (generate_video apiKey data outcomes).1 = 0 := by
  simp [generate_video, h, countPosts]

/-- Witness for C5 at a concrete run: no credential at all. -/
theorem C5_missing_credential_fail_fast_witness :
    generate_video none { prompt := "p" } (fun _ => .connectError "boom") =
      ([], some (.error ⟨500, .text "API Key not configured on server."⟩)) ∧
    countPosts (generate_video none { prompt := "p" }
      (fun _ => .connectError "boom")).1 = 0 :=
  C5_missing_credential_fail_fast none { prompt := "p" }
    (fun _ => .connectError "boom") rfl

/-- A successful subscript implies a true membership test. -/
theorem pyContains_of_pySubscript (j : Json) (key : String) (v : Json)
    (h : pySubscript j key = some v) : pyContains key j = some true := by
  cases j <;> simp [pySubscript] at h
  case obj fields =>
    rcases hf : fields.find? (fun p => p.1 == key) with _ | p
    · rw [hf] at h
      simp at h
    · have hp := List.find?_some hf
      have hmem := List.mem_of_find?_eq_some hf
      simp only [pyContains, Option.some.injEq]
      rw [List.any_eq_true]
      exact ⟨p, hmem, hp⟩

/-- C6: when the first 2 attempts fail transiently and the 3rd attempt
succeeds (HTTP 200) with a body carrying output.task_id, the Submission
Executor returns that task identifier from the 3rd attempt and surfaces no
error. -/
theorem C6_retry_recovers (apiKey : Option String) (data : VideoGenerationRequest)
    (outcomes : Nat → CreateOutcome) (body out tid : Json)
    (h0 : (outcomes 0).isTransient = true)
    (h1 : (outcomes 1).isTransient = true)
    (h2 : outcomes 2 = .response 200 body)
    (hout : pySubscript body "output" = some out)
    (htid : pySubscript out "task_id" = some tid) :
    call_wan_api_create apiKey data outcomes =
      ([.post createUrl (createHeaders apiKey) (buildPayload data),
        .sleep 1,
        .post createUrl (createHeaders apiKey) (buildPayload data),
        .sleep 1,
        .post createUrl (createHeaders apiKey) (buildPayload data)],
       some (.ok tid)) ∧
    countPosts (call_wan_api_create apiKey data outcomes).1 = 3 := by
  have c1 := pyContains_of_pySubscript _ _ _ hout
  have c2 := pyContains_of_pySubscript _ _ _ htid
  obtain ⟨m0, e0⟩ := transient_cases _ h0
  obtain ⟨m1, e1⟩ := transient_cases _ h1
  rcases e0 with e0 | e0 <;> rcases e1 with e1 | e1 <;>
    simp [call_wan_api_create, createLoop, e0, e1, h2, missingTaskId,
      c1, c2, hout, htid, countPosts]

/-- Witness for C6 at a concrete run: two connection failures, then a
well-formed success body. -/
theorem C6_retry_recovers_witness :
    (call_wan_api_create none { prompt := "p" }
      (fun i => if i < 2 then .connectError "boom"
                else .response 200 (.obj [("output", .obj [("task_id", .str "t-1")])]))).2 =
      some (.ok (.str "t-1")) := by
  have h := C6_retry_recovers none { prompt := "p" }
    (fun i => if i < 2 then .connectError "boom"
              else .response 200 (.obj [("output", .obj [("task_id", .str "t-1")])]))
    (.obj [("output", .obj [("task_id", .str "t-1")])])
    (.obj [("task_id", .str "t-1")]) (.str "t-1")
    rfl rfl rfl rfl rfl
  rw [h.1]

/-- C7: a success-status (HTTP 200) response whose decoded body fails the
source's output.task_id presence check makes call_wan_api_create fail
immediately after exactly 1 POST attempt (no retry) with the internal
upstream-contract-violation HTTPException. -/
theorem C7_contract_violation_no_retry (apiKey : Option String)
    (data : VideoGenerationRequest) (outcomes : Nat → CreateOutcome) (body : Json)
    (h0 : outcomes 0 = .response 200 body)
    (hmiss : missingTaskId body = some true) :
    call_wan_api_create apiKey data outcomes =
      ([.post createUrl (createHeaders apiKey) (buildPayload data)],
       some (.error ⟨500, .text "API response missing task_id"⟩)) ∧
    countPosts (call_wan_api_create apiKey data outcomes).1 = 1 := by
  simp [call_wan_api_create, createLoop, h0, hmiss, countPosts]

/-- Witness for C7 at a concrete run: an HTTP 200 whose body has no
output field. -/
theorem C7_contract_violation_no_retry_witness :
    call_wan_api_create none { prompt := "p" }
        (fun _ => .response 200 (.obj [("request_id", .str "r-1")])) =
      ([.post createUrl (createHeaders none) (buildPayload { prompt := "p" })],
       some (.error ⟨500, .text "API response missing task_id"⟩)) ∧
    countPosts (call_wan_api_create none { prompt := "p" }
      (fun _ => .response 200 (.obj [("request_id", .str "r-1")]))).1 = 1 :=
  C7_contract_violation_no_retry none { prompt := "p" }
    (fun _ => .response 200 (.obj [("request_id", .str "r-1")]))
    (.obj [("request_id", .str "r-1")]) rfl rfl

/-- C3: the status translation reads output.task_status (default
UNKNOWN); on SUCCEEDED it sets video_url from output.video_url and
progress_msg Completed; on FAILED it sets progress_msg to "Failed: " plus
output.message (fallback "Unknown error") and leaves video_url unset; on
any other status it sets progress_msg Processing... and leaves video_url
unset. -/
theorem C3_status_translation (body : WanStatusBody) :
    (translate_status body).status =
      (body.output.getD {}).task_status.getD "UNKNOWN" ∧
    ((body.output.getD {}).task_status.getD "UNKNOWN" = "SUCCEEDED" →
      (translate_status body).video_url = (body.output.getD {}).video_url ∧
      (translate_status body).progress_msg = "Completed") ∧
    ((body.output.getD {}).task_status.getD "UNKNOWN" = "FAILED" →
      (translate_status body).progress_msg =
        "Failed: " ++ (body.output.getD {}).message.getD "Unknown error" ∧
      (translate_status body).video_url = none) ∧
    ((body.output.getD {}).task_status.getD "UNKNOWN" ≠ "SUCCEEDED" →
      (body.output.getD {}).task_status.getD "UNKNOWN" ≠ "FAILED" →
      (translate_status body).progress_msg = "Processing..." ∧
      (translate_status body).video_url = none) := by
  by_cases hS : (body.output.getD {}).task_status.getD "UNKNOWN" = "SUCCEEDED"
  · simp [translate_status, hS]
  · by_cases hF : (body.output.getD {}).task_status.getD "UNKNOWN" = "FAILED"
    · simp [translate_status, hS, hF]
    · simp [translate_status, hS, hF]

/-- Witness for C3 at concrete bodies: a SUCCEEDED body and a FAILED
body. -/
theorem C3_status_translation_witness :
    (translate_status ⟨some ⟨some "SUCCEEDED", some "http://x/v.mp4", none⟩, none⟩).video_url =
      some "http://x/v.mp4" ∧
    (translate_status ⟨some ⟨some "FAILED", none, some "quota exceeded"⟩, none⟩).progress_msg =
      "Failed: quota exceeded" :=
  ⟨((C3_status_translation ⟨some ⟨some "SUCCEEDED", some "http://x/v.mp4", none⟩, none⟩).2.1 rfl).1,
   ((C3_status_translation ⟨some ⟨some "FAILED", none, some "quota exceeded"⟩, none⟩).2.2.1 rfl).1⟩

/-- C8: invariants of every produced StatusReport: a set video_url
implies status SUCCEEDED, and a progress_msg beginning with "Failed: "
implies status FAILED. -/
theorem C8_report_invariant (body : WanStatusBody) :
    ((translate_status body).video_url.isSome = true →
      (translate_status body).status = "SUCCEEDED") ∧
    (strStartsWith (translate_status body).progress_msg "Failed: " = true →
      (translate_status body).status = "FAILED") := by
  by_cases hS : (body.output.getD {}).task_status.getD "UNKNOWN" = "SUCCEEDED"
  · refine ⟨fun _ => ?_, fun h => ?_⟩
    · simp [translate_status, hS]
    · rw [show (translate_status body).progress_msg = "Completed" by
        simp [translate_status, hS]] at h
      exact absurd h (by decide)
  · by_cases hF : (body.output.getD {}).task_status.getD "UNKNOWN" = "FAILED"
    · refine ⟨fun h => ?_, fun _ => ?_⟩
      · rw [show (translate_status body).video_url = none by
          simp [translate_status, hS, hF]] at h
        simp at h
      · simp [translate_status, hS, hF]
    · refine ⟨fun h => ?_, fun h => ?_⟩
      · rw [show (translate_status body).video_url = none by
          simp [translate_status, hS, hF]] at h
        simp at h
      · rw [show (translate_status body).progress_msg = "Processing..." by
          simp [translate_status, hS, hF]] at h
        exact absurd h (by decide)

/-- Witness for C8 at concrete reports: one with video_url set, one with
a failing progress_msg. -/
theorem C8_report_invariant_witness :
    (translate_status ⟨some ⟨some "SUCCEEDED", some "http://x/v.mp4", none⟩, none⟩).status =
      "SUCCEEDED" ∧
    (translate_status ⟨some ⟨some "FAILED", none, some "quota exceeded"⟩, none⟩).status =
      "FAILED" :=
  ⟨(C8_report_invariant ⟨some ⟨some "SUCCEEDED", some "http://x/v.mp4", none⟩, none⟩).1 rfl,
   (C8_report_invariant ⟨some ⟨some "FAILED", none, some "quota exceeded"⟩, none⟩).2 rfl⟩

/-- C9: for every decoded get-task body, the poll operation returns the
normal normalized StatusReport whatever the upstream HTTP status code (the
status code is never inspected and no UpstreamRejected error is surfaced),
and a body without output.task_status yields status UNKNOWN with
progress_msg Processing.... -/
theorem C9_poll_ignores_status_code (apiKey : Option String) (task_id : String)
    (code : Nat) (body : WanStatusBody) :
    (check_status apiKey task_id (.response code body)).2 =
      .ok (translate_status body) ∧
    ((body.output.getD {}).task_status = none →
      (translate_status body).status = "UNKNOWN" ∧
      (translate_status body).progress_msg = "Processing...") := by
  refine ⟨by simp [check_status, call_wan_api_status], fun h => ?_⟩
  simp [translate_status, h]

/-- Witness for C9 at a concrete run: an upstream 500 with an error body
lacking output.task_status. -/
theorem C9_poll_ignores_status_code_witness :
    (check_status none "t-1" (.response 500 ⟨none, none⟩)).2 =
      .ok (translate_status ⟨none, none⟩) ∧
    (translate_status (⟨none, none⟩ : WanStatusBody)).status = "UNKNOWN" :=
  ⟨(C9_poll_ignores_status_code none "t-1" 500 ⟨none, none⟩).1,
   ((C9_poll_ignores_status_code none "t-1" 500 ⟨none, none⟩).2 rfl).1⟩

/-- C10: check_status never checks the credential: for every credential
(including none) it issues exactly the one outbound GET to the
task-lookup endpoint, and its result is determined by the transport
outcome alone — there is no configuration-error branch. -/
theorem C10_poll_no_credential_check (apiKey : Option String) (task_id : String)
    (outcome : StatusOutcome) :
    (check_status apiKey task_id outcome).1 =
      [.get (BASE_URL ++ "/tasks/" ++ task_id) (statusHeaders apiKey)] ∧
    (check_status apiKey task_id outcome).2 =
      (match outcome with
       | .response _ body => .ok (translate_status body)
       | .requestError msg => .error ⟨500, .text msg⟩) := by
  cases outcome <;> simp [check_status, call_wan_api_status]

/-- C4: the Request Builder maps every GenerationRequest field to the
upstream nested payload (input.prompt, input.negative_prompt,
parameters.size, parameters.duration, parameters.prompt_extend,
parameters.audio); an absent negative_prompt is serialized as null and an
explicitly empty one as the empty string, so the two remain
distinguishable and neither is dropped. -/
theorem C4_request_builder (data : VideoGenerationRequest) :
    (pySubscript (buildPayload data) "input").bind
      (fun i => pySubscript i "prompt") = some (.str data.prompt) ∧
    (pySubscript (buildPayload data) "input").bind
      (fun i => pySubscript i "negative_prompt") =
        some (optStrToJson data.negative_prompt) ∧
    (pySubscript (buildPayload data) "parameters").bind
      (fun p => pySubscript p "size") = some (.str data.size) ∧
    (pySubscript (buildPayload data) "parameters").bind
      (fun p => pySubscript p "duration") = some (.num data.duration) ∧
    (pySubscript (buildPayload data) "parameters").bind
      (fun p => pySubscript p "prompt_extend") = some (.bool data.prompt_extend) ∧
    (pySubscript (buildPayload data) "parameters").bind
      (fun p => pySubscript p "audio") = some (.bool data.audio) ∧
    (pySubscript (buildPayload { data with negative_prompt := none }) "input").bind
      (fun i => pySubscript i "negative_prompt") ≠
    (pySubscript (buildPayload { data with negative_prompt := some "" }) "input").bind
      (fun i => pySubscript i "negative_prompt") := by
  refine ⟨rfl, rfl, rfl, rfl, rfl, rfl, ?_⟩
  intro h
  simp [buildPayload, pySubscript, optStrToJson] at h

/-- Witness for C4 at a concrete request carrying an explicitly empty
negative_prompt: the field is present as the empty string. -/
theorem C4_request_builder_witness :
    (pySubscript (buildPayload { prompt := "a cat", negative_prompt := some "" }) "input").bind
      (fun i => pySubscript i "negative_prompt") = some (.str "") :=
  (C4_request_builder { prompt := "a cat", negative_prompt := some "" }).2.1
